import Mathlib

/-!
Shallow embedding of `remote-fastboot` (src/src/main.go) and verification of
its specification claims.

Bytes are modelled as `Nat` (each < 256 where it matters), byte buffers as
`List Nat`.  A TCP connection's incoming data is modelled as a list of
segments: each `conn.Read` issued by a `bufio.Reader` returns the next whole
segment (the nondeterministic segmentation of the stream is a parameter of
the model).
-/

namespace RemoteFastboot

/-- Big-endian encoding of a 64-bit length, as in Go's
`binary.BigEndian.PutUint64` (main.go, `netWrite`): eight bytes, most
significant first.  The argument is reduced mod 2^64 exactly as the Go
`uint64` conversion does. -/
def putUint64 (n : Nat) : List Nat :=
  [n % 2 ^ 64 / 2 ^ 56 % 256, n % 2 ^ 64 / 2 ^ 48 % 256,
   n % 2 ^ 64 / 2 ^ 40 % 256, n % 2 ^ 64 / 2 ^ 32 % 256,
   n % 2 ^ 64 / 2 ^ 24 % 256, n % 2 ^ 64 / 2 ^ 16 % 256,
   n % 2 ^ 64 / 2 ^ 8 % 256, n % 2 ^ 64 % 256]

/-- Big-endian decoding of an 8-byte header, as in Go's
`binary.BigEndian.Uint64` (main.go, `netRead`). -/
def beUint64 (bs : List Nat) : Nat :=
  bs.foldl (fun acc b => acc * 256 + b) 0

theorem beUint64_putUint64 (n : Nat) (h : n < 2 ^ 64) :
    beUint64 (putUint64 n) = n := by
  simp only [putUint64, beUint64, List.foldl]
  have : n % 2 ^ 64 = n := Nat.mod_eq_of_lt h
  rw [this]
  omega

/-- A freshly constructed `bufio.Reader` accumulating whole segments from the
connection until `need` bytes are buffered (this is what `io.ReadFull` on a
`bufio.NewReader(conn)` does for requests smaller than the buffer size: each
underlying `conn.Read` delivers one segment into the buffer).  Returns the
full buffer contents together with the segments not yet consumed, or `none`
when the stream ends before `need` bytes arrive (a short read). -/
def bufFill (buf : List Nat) (need : Nat) :
    List (List Nat) → Option (List Nat × List (List Nat))
  | [] => if need ≤ buf.length then some (buf, []) else none
  | s :: rest =>
    if need ≤ buf.length then some (buf, s :: rest)
    else bufFill (buf ++ s) need rest

/-- The byte stream produced on the wire by `netWrite` (main.go:252-263):
the 8-byte big-endian length of the payload followed by the payload bytes. -/
def netWrite (data : List Nat) : List Nat :=
  putUint64 data.length ++ data

/-- `netRead` (main.go:234-250): wrap the connection in a fresh buffered
reader, read exactly 8 header bytes, decode them as a big-endian length,
then read exactly that many payload bytes from the same reader.  Returns the
payload together with the segments left unconsumed on the connection; bytes
that were pulled into the buffered reader but not returned are discarded
when the function returns.  `none` models the error return (short read at
either stage). -/
def netRead (segs : List (List Nat)) : Option (List Nat × List (List Nat)) :=
  match bufFill [] 8 segs with
  | none => none
  | some (buf, rest) =>
    let size := beUint64 (buf.take 8)
    match bufFill (buf.drop 8) size rest with
    | none => none
    | some (buf2, rest2) => some (buf2.take size, rest2)

/-- The 4-byte handshake literal `"FB01"` as bytes. -/
def handshakeBytes : List Nat := [70, 66, 48, 49]

/-- `netReadHandshake` (main.go:214-223): wrap the connection in a fresh
buffered reader, read exactly 4 bytes, succeed only if they equal `"FB01"`.
Returns the unconsumed segments on success (bytes buffered beyond the 4 are
discarded); `none` models the error return (short read or mismatch). -/
def netReadHandshake (segs : List (List Nat)) : Option (List (List Nat)) :=
  match bufFill [] 4 segs with
  | none => none
  | some (buf, rest) =>
    if buf.take 4 = handshakeBytes then some rest else none

/-- C3: for every payload whose length fits in a 64-bit unsigned integer,
encoding with `netWrite` (8-byte big-endian length, then the payload) and
decoding the resulting byte stream with `netRead` reproduces exactly the
original payload, consuming the stream entirely. -/
theorem netWrite_netRead_roundtrip (payload : List Nat)
    (h : payload.length < 2 ^ 64) :
    netRead [netWrite payload] = some (payload, []) := by
  have hlen : (putUint64 payload.length).length = 8 := rfl
  have htake : (netWrite payload).take 8 = putUint64 payload.length := by
    rw [netWrite, ← hlen, List.take_left]
  have hdrop : (netWrite payload).drop 8 = payload := by
    rw [netWrite, ← hlen, List.drop_left]
  have hwlen : (netWrite payload).length = 8 + payload.length := by
    simp [netWrite, hlen]
  have h1 : bufFill [] 8 [netWrite payload] = some (netWrite payload, []) := by
    simp [bufFill, hwlen]
  have h2 : bufFill payload payload.length [] = some (payload, []) := by
    simp [bufFill]
  simp [netRead, h1, htake, hdrop, beUint64_putUint64 _ h, h2]

/-- The chunking loop of `usbWrite` (main.go:271-282): `count` remaining
iterations, current `offset`; each iteration sends
`data[offset : offset+size]` with `size = min (len(data) - offset) mps`.
Returns the chunks in the order the bulk transfers are issued. -/
def usbWriteLoop (data : List Nat) (mps : Nat) : Nat → Nat → List (List Nat)
  | 0, _ => []
  | i + 1, offset =>
    let size := min (data.length - offset) mps
    (data.drop offset).take size :: usbWriteLoop data mps i (offset + size)

/-- `usbWrite` (main.go:265-284): split `data` into
`(len(data) + mps - 1) / mps` chunks of at most `mps` bytes each, where
`mps` is the out-endpoint's maximum packet size, and issue one bulk
transfer per chunk in order.  The model returns the list of chunks. -/
def usbWrite (data : List Nat) (mps : Nat) : List (List Nat) :=
  usbWriteLoop data mps ((data.length + mps - 1) / mps) 0

theorem usbWriteLoop_length (data : List Nat) (mps i offset : Nat) :
    (usbWriteLoop data mps i offset).length = i := by
  induction i generalizing offset with
  | zero => rfl
  | succ n ih => simp [usbWriteLoop, ih]

theorem usbWriteLoop_join (data : List Nat) (mps : Nat) (h : 0 < mps)
    (i offset : Nat) (hcov : data.length - offset ≤ i * mps) :
    (usbWriteLoop data mps i offset).flatten = data.drop offset := by
  induction i generalizing offset with
  | zero =>
    have : data.length ≤ offset := by omega
    simp [usbWriteLoop, List.drop_eq_nil_of_le this]
  | succ n ih =>
    simp only [usbWriteLoop, List.flatten]
    have hsize : min (data.length - offset) mps ≤ mps := Nat.min_le_right _ _
    rw [ih (offset + min (data.length - offset) mps) (by
      rcases Nat.le_total (data.length - offset) mps with hle | hle
      · have : min (data.length - offset) mps = data.length - offset :=
          Nat.min_eq_left hle
        rw [this]; omega
      · have : min (data.length - offset) mps = mps := Nat.min_eq_right hle
        rw [this]
        have hsm : (n + 1) * mps = n * mps + mps := Nat.succ_mul n mps
        omega)]
    rw [← List.drop_drop, List.take_append_drop]

theorem usbWriteLoop_chunk_le (data : List Nat) (mps : Nat) (i offset : Nat) :
    ∀ c ∈ usbWriteLoop data mps i offset, c.length ≤ mps := by
  induction i generalizing offset with
  | zero => intro c hc; simp [usbWriteLoop] at hc
  | succ n ih =>
    intro c hc
    simp only [usbWriteLoop, List.mem_cons] at hc
    rcases hc with hc | hc
    · subst hc
      calc ((data.drop offset).take (min (data.length - offset) mps)).length
          ≤ min (data.length - offset) mps := by
            simp
        _ ≤ mps := Nat.min_le_right _ _
    · exact ih _ _ hc

/-- C2: for every payload and every positive endpoint maximum packet size,
`usbWrite` issues exactly `⌈L / mps⌉` bulk transfers in order (0 when
`L = 0`), each chunk at most `mps` bytes, and the chunks concatenate back to
the original payload. -/
theorem usbWrite_chunking (data : List Nat) (mps : Nat) (h : 0 < mps) :
    (usbWrite data mps).length = data.length ⌈/⌉ mps ∧
    (∀ c ∈ usbWrite data mps, c.length ≤ mps) ∧
    (usbWrite data mps).flatten = data ∧
    (data.length = 0 → usbWrite data mps = []) := by
  refine ⟨usbWriteLoop_length _ _ _ _, usbWriteLoop_chunk_le _ _ _ _, ?_, ?_⟩
  · have hq := Nat.div_add_mod (data.length + mps - 1) mps
    have hr := Nat.mod_lt (data.length + mps - 1) h
    have hcov : data.length - 0 ≤ (data.length + mps - 1) / mps * mps := by
      rw [Nat.mul_comm]
      omega
    simpa using usbWriteLoop_join data mps h _ 0 hcov
  · intro h0
    have hc : (data.length + mps - 1) / mps = 0 := by
      rw [h0]
      exact Nat.div_eq_of_lt (by omega)
    rw [usbWrite, hc]
    rfl

/-- Witness for `usbWrite_chunking` at `data = [1, 2, 3, 4, 5]`, `mps = 2`. -/
theorem usbWrite_chunking_witness :
    0 < 2 ∧
    ((usbWrite [1, 2, 3, 4, 5] 2).length = 5 ⌈/⌉ 2 ∧
    (∀ c ∈ usbWrite [1, 2, 3, 4, 5] 2, c.length ≤ 2) ∧
    (usbWrite [1, 2, 3, 4, 5] 2).flatten = [1, 2, 3, 4, 5] ∧
    ((5 : Nat) = 0 → usbWrite [1, 2, 3, 4, 5] 2 = [])) :=
  ⟨by decide, by simpa using usbWrite_chunking [1, 2, 3, 4, 5] 2 (by decide)⟩

/-- Witness for `netWrite_netRead_roundtrip` at `payload = [10, 20, 30]`. -/
theorem netWrite_netRead_roundtrip_witness :
    ([10, 20, 30] : List Nat).length < 2 ^ 64 ∧
    netRead [netWrite [10, 20, 30]] = some ([10, 20, 30], []) :=
  ⟨by decide, netWrite_netRead_roundtrip [10, 20, 30] (by decide)⟩

/-- A USB endpoint descriptor as the locator reads it: the libusb transfer
type (`BulkTransfer = 2`), the direction bit (`1` = in), the maximum packet
size and the endpoint address. -/
structure EndpointDescriptor where
  transferType : Nat
  direction : Nat
  maxPacketSize : Nat
  endpointAddress : Nat
deriving DecidableEq, Repr

/-- libusb's bulk transfer type code, `libusb.BulkTransfer`. -/
def BulkTransfer : Nat := 2

/-- The first alternate setting of an interface, the only one the code ever
reads (`SupportedInterfaces[i].InterfaceDescriptors[0]`). -/
structure InterfaceDescriptor where
  interfaceClass : Nat
  interfaceSubClass : Nat
  interfaceProtocol : Nat
  endpointDescriptors : List EndpointDescriptor
deriving DecidableEq, Repr

/-- An active configuration descriptor: the reported interface count and
the interface list (one entry per reported interface in a well-formed
descriptor, `numInterfaces = supportedInterfaces.length`). -/
structure ConfigDescriptor where
  numInterfaces : Nat
  supportedInterfaces : List InterfaceDescriptor
deriving DecidableEq, Repr

/-- One attached device as the locator observes it: the active config
descriptor (`none` models `ActiveConfigDescriptor` failing), whether
`device.Open()` succeeds, whether `handle.ClaimInterface(0)` succeeds, and
the serial-number string descriptor. -/
structure Device where
  activeConfig : Option ConfigDescriptor
  openOk : Bool
  claimOk : Bool
  serialNumber : String
deriving DecidableEq, Repr

/-- A device retained by the scan: the device plus the interface and the
indices of the chosen in/out bulk endpoints. -/
structure MatchedDev where
  device : Device
  iface : InterfaceDescriptor
  inIdx : Nat
  outIdx : Nat
deriving DecidableEq, Repr

/-- The endpoint-selection loop (main.go:70-82): walk the endpoint list,
remembering the index of the last bulk endpoint seen in each direction. -/
def findEndpointsLoop :
    List EndpointDescriptor → Nat → Option Nat → Option Nat →
    Option Nat × Option Nat
  | [], _, i, o => (i, o)
  | ep :: rest, idx, i, o =>
    if ep.transferType ≠ BulkTransfer then
      findEndpointsLoop rest (idx + 1) i o
    else if ep.direction = 1 then
      findEndpointsLoop rest (idx + 1) (some idx) o
    else
      findEndpointsLoop rest (idx + 1) i (some idx)

/-- Per-device outcome of one iteration of the scan loop in `usbDeviceOpen`
(main.go:50-105).  `skip` is a `continue`; `panic` is the out-of-range
index `SupportedInterfaces[0]` taken on an empty interface list; `matched`
is a device recorded as a candidate (`deviceCount++`). -/
inductive ScanStep where
  | skip
  | panic
  | matched (m : MatchedDev)
deriving DecidableEq, Repr

/-- One iteration of the scan loop of `usbDeviceOpen` (main.go:50-105),
checking a single device against the filters: active config readable,
reported interface count not greater than one (then indexing the first
interface, which panics when the list is empty), class/subclass/protocol
`0xff/0x42/0x03`, a bulk endpoint in each direction, and — only when a
target serial was given — device openable and serial string equal. -/
def scanDevice (serial : String) (d : Device) : ScanStep :=
  match d.activeConfig with
  | none => .skip
  | some cfg =>
    if cfg.numInterfaces > 1 then .skip
    else
      match cfg.supportedInterfaces with
      | [] => .panic
      | iface :: _ =>
        if iface.interfaceClass ≠ 0xff ∨ iface.interfaceSubClass ≠ 0x42 ∨
            iface.interfaceProtocol ≠ 0x03 then .skip
        else
          match findEndpointsLoop iface.endpointDescriptors 0 none none with
          | (some i, some o) =>
            if serial ≠ "" then
              if ¬ d.openOk then .skip
              else if d.serialNumber ≠ serial then .skip
              else .matched ⟨d, iface, i, o⟩
            else .matched ⟨d, iface, i, o⟩
          | _ => .skip

/-- The scan loop of `usbDeviceOpen` over the whole device list, collecting
the matched candidates in list order; `none` models the loop panicking at
the first device whose interface list is indexed out of range. -/
def usbScan (serial : String) : List Device → Option (List MatchedDev)
  | [] => some []
  | d :: rest =>
    match scanDevice serial d with
    | .panic => none
    | .skip => usbScan serial rest
    | .matched m => (usbScan serial rest).map (m :: ·)

/-- The result of `usbDeviceOpen`: a Go panic, one of the four distinct
error returns, or success. -/
inductive UsbOpenResult where
  | panic
  | errNoDevice
  | errMultiple
  | errOpen
  | errClaim
  | ok (m : MatchedDev)
deriving DecidableEq, Repr

/-- `usbDeviceOpen` (main.go:45-125): scan all devices; zero candidates is
the "no apropriate usb device found" error, more than one the "found
multiple devices" error; with exactly one candidate, open it ("open device
failed" on failure) and claim interface 0 ("claime interface failed" on
failure, closing the handle), else return the device. -/
def usbDeviceOpen (serial : String) (devices : List Device) : UsbOpenResult :=
  match usbScan serial devices with
  | none => .panic
  | some [] => .errNoDevice
  | some [m] =>
    if ¬ m.device.openOk then .errOpen
    else if ¬ m.device.claimOk then .errClaim
    else .ok m
  | some (_ :: _ :: _) => .errMultiple

/-- `true` exactly on the success return of `usbDeviceOpen`. -/
def UsbOpenResult.isOk : UsbOpenResult → Bool
  | .ok _ => true
  | _ => false

/-- `true` when the scan records the device as a candidate
(`deviceCount++` runs for it). -/
def ScanStep.isMatched : ScanStep → Bool
  | .matched _ => true
  | _ => false

/-- The candidates a device list yields: each device's match, in order. -/
def scanMatches (serial : String) (devices : List Device) : List MatchedDev :=
  devices.filterMap (fun d =>
    match scanDevice serial d with
    | .matched m => some m
    | _ => none)

theorem usbScan_eq_scanMatches (serial : String) (devices : List Device)
    (h : ∀ d ∈ devices, scanDevice serial d ≠ .panic) :
    usbScan serial devices = some (scanMatches serial devices) := by
  induction devices with
  | nil => rfl
  | cons d rest ih =>
    have hd : scanDevice serial d ≠ .panic := h d (by simp)
    have hrest : ∀ x ∈ rest, scanDevice serial x ≠ .panic := fun x hx =>
      h x (by simp [hx])
    simp only [usbScan, scanMatches, List.filterMap_cons]
    cases hs : scanDevice serial d with
    | panic => exact absurd hs hd
    | skip => simpa [scanMatches] using ih hrest
    | matched m =>
      rw [ih hrest]
      rfl

/-- An interface carrying the fastboot signature `0xff/0x42/0x03` with one
bulk endpoint in each direction. -/
def claimableIface : InterfaceDescriptor :=
  { interfaceClass := 0xff, interfaceSubClass := 0x42,
    interfaceProtocol := 0x03,
    endpointDescriptors :=
      [{ transferType := 2, direction := 1, maxPacketSize := 512,
         endpointAddress := 129 },
       { transferType := 2, direction := 0, maxPacketSize := 512,
         endpointAddress := 1 }] }

/-- A filter-satisfying device (single interface carrying the
`0xff/0x42/0x03` signature with bulk endpoints both ways, no serial
requested) whose `Open()` call fails. -/
def unopenableDevice : Device :=
  { activeConfig := some
      { numInterfaces := 1, supportedInterfaces := [claimableIface] },
    openOk := false, claimOk := true, serialNumber := "" }

/-- Counterexample to C1 as stated: a device list with exactly one device
satisfying the interface-signature filter (no serial requested) on which
`usbDeviceOpen` nevertheless does not return a matched device, because the
subsequent `device.Open()` fails. -/
theorem usbDeviceOpen_iff_counterexample :
    (scanMatches "" [unopenableDevice]).length = 1 ∧
    (usbDeviceOpen "" [unopenableDevice]).isOk = false := by
  decide

/-- C1 (amended): when no scanned device panics the loop (no device with an
empty interface list reaches the indexing step, see C6), `usbDeviceOpen`
fails with the distinct "no device found" error exactly when zero devices
pass the signature-and-serial filter, fails with the distinct "ambiguous
device" error exactly when more than one passes, and returns a matched
device exactly when exactly one passes and that device can then be opened
and its interface claimed; open and claim failures are further distinct
errors. -/
theorem usbDeviceOpen_characterization (serial : String)
    (devices : List Device)
    (h : ∀ d ∈ devices, scanDevice serial d ≠ .panic) :
    (usbDeviceOpen serial devices = .errNoDevice ↔
      scanMatches serial devices = []) ∧
    (usbDeviceOpen serial devices = .errMultiple ↔
      2 ≤ (scanMatches serial devices).length) ∧
    (∀ m, scanMatches serial devices = [m] →
      usbDeviceOpen serial devices =
        (if ¬ m.device.openOk then .errOpen
         else if ¬ m.device.claimOk then .errClaim
         else .ok m)) ∧
    ((usbDeviceOpen serial devices).isOk = true ↔
      ∃ m, scanMatches serial devices = [m] ∧ m.device.openOk = true ∧
        m.device.claimOk = true) := by
  have hs := usbScan_eq_scanMatches serial devices h
  cases hms : scanMatches serial devices with
  | nil =>
    have hres : usbDeviceOpen serial devices = .errNoDevice := by
      unfold usbDeviceOpen
      rw [hs, hms]
    simp [hres, hms, UsbOpenResult.isOk]
  | cons m rest =>
    cases rest with
    | nil =>
      have hres : usbDeviceOpen serial devices =
          (if ¬ m.device.openOk then .errOpen
           else if ¬ m.device.claimOk then .errClaim
           else .ok m) := by
        unfold usbDeviceOpen
        rw [hs, hms]
      cases hopen : m.device.openOk <;> cases hclaim : m.device.claimOk <;>
        simp [hres, hms, hopen, hclaim, UsbOpenResult.isOk]
    | cons m2 rest2 =>
      have hres : usbDeviceOpen serial devices = .errMultiple := by
        unfold usbDeviceOpen
        rw [hs, hms]
      simp [hres, hms, UsbOpenResult.isOk]

/-- A filter-satisfying device that can also be opened and claimed. -/
def claimableDevice : Device :=
  { activeConfig := some
      { numInterfaces := 1, supportedInterfaces := [claimableIface] },
    openOk := true, claimOk := true, serialNumber := "" }

/-- The candidate the scan records for `claimableDevice`. -/
def claimableMatch : MatchedDev := ⟨claimableDevice, claimableIface, 0, 1⟩

/-- Witness for `usbDeviceOpen_characterization` on the singleton list
holding `claimableDevice`. -/
theorem usbDeviceOpen_characterization_witness :
    (∀ d ∈ [claimableDevice], scanDevice "" d ≠ .panic) ∧
    ((usbDeviceOpen "" [claimableDevice] = .errNoDevice ↔
      scanMatches "" [claimableDevice] = []) ∧
    (usbDeviceOpen "" [claimableDevice] = .errMultiple ↔
      2 ≤ (scanMatches "" [claimableDevice]).length) ∧
    (∀ m, scanMatches "" [claimableDevice] = [m] →
      usbDeviceOpen "" [claimableDevice] =
        (if ¬ m.device.openOk then .errOpen
         else if ¬ m.device.claimOk then .errClaim
         else .ok m)) ∧
    ((usbDeviceOpen "" [claimableDevice]).isOk = true ↔
      ∃ m, scanMatches "" [claimableDevice] = [m] ∧
        m.device.openOk = true ∧ m.device.claimOk = true)) :=
  ⟨by decide, usbDeviceOpen_characterization "" [claimableDevice] (by decide)⟩

/-- A device whose active configuration reports zero interfaces. -/
def zeroIfaceDevice : Device :=
  { activeConfig := some { numInterfaces := 0, supportedInterfaces := [] },
    openOk := true, claimOk := true, serialNumber := "" }

/-- A device whose active configuration reports two interfaces. -/
def multiIfaceDevice : Device :=
  { activeConfig := some
      { numInterfaces := 2,
        supportedInterfaces :=
          [{ interfaceClass := 0xff, interfaceSubClass := 0x42,
             interfaceProtocol := 0x03, endpointDescriptors := [] },
           { interfaceClass := 0xff, interfaceSubClass := 0x42,
             interfaceProtocol := 0x03, endpointDescriptors := [] }] },
    openOk := true, claimOk := true, serialNumber := "" }

/-- C6: the guard only skips devices reporting more than one interface.  A
device reporting two interfaces is indeed skipped without failing the scan,
but a device reporting zero interfaces is not skipped: the code goes on to
index `SupportedInterfaces[0]` of an empty list, a Go panic that aborts the
whole scan (and the process) instead of treating the device as
non-matching. -/
theorem scanDevice_zero_interfaces_panics :
    scanDevice "" multiIfaceDevice = .skip ∧
    usbDeviceOpen "" [multiIfaceDevice, claimableDevice] =
      .ok claimableMatch ∧
    scanDevice "" zeroIfaceDevice = .panic ∧
    usbDeviceOpen "" [zeroIfaceDevice, claimableDevice] = .panic := by
  decide

/-- Result of `usbRead` (main.go:286-293): the request lengths of the bulk
transfers it issued (one list element per `BulkTransfer` call), the byte
count returned, and whether it succeeded. -/
structure UsbReadOut where
  requests : List Nat
  received : Nat
  ok : Bool
deriving DecidableEq, Repr

/-- `usbRead` (main.go:286-293): one blocking bulk transfer on the in
endpoint into the caller's buffer of capacity `cap`; the device's response
is the oracle `(n, ok)`. -/
def usbRead (cap : Nat) (oracle : Nat × Bool) : UsbReadOut :=
  { requests := [cap], received := oracle.1, ok := oracle.2 }

/-- Observable actions of one iteration of the accept loop
(main.go:170-211). -/
inductive Ev where
  | accept
  | usbOpenAttempt (r : UsbOpenResult)
  | sleep
  | writeHandshake (ok : Bool)
  | netReadEv (ok : Bool)
  | usbWriteEv (ok : Bool)
  | usbReadEv (cap : Nat) (ok : Bool)
  | netWriteEv (ok : Bool)
  | connClose
  | usbClose
deriving DecidableEq, Repr

/-- Outcome of the four fallible steps of one relay round
(main.go:189-208): network read, USB write, USB read, network write. -/
structure Round where
  nr : Bool
  uw : Bool
  ur : Bool
  nw : Bool
deriving DecidableEq, Repr

/-- Events of one relay round, stopping at the first failing step
(`break`), and whether the round completed (`true`) so the loop continues.
The USB read always targets the 256-byte `response` buffer allocated at
main.go:188. -/
def roundEvents (r : Round) : List Ev × Bool :=
  if ¬ r.nr then ([.netReadEv false], false)
  else if ¬ r.uw then ([.netReadEv true, .usbWriteEv false], false)
  else if ¬ r.ur then
    ([.netReadEv true, .usbWriteEv true, .usbReadEv 256 false], false)
  else if ¬ r.nw then
    ([.netReadEv true, .usbWriteEv true, .usbReadEv 256 true,
      .netWriteEv false], false)
  else
    ([.netReadEv true, .usbWriteEv true, .usbReadEv 256 true,
      .netWriteEv true], true)

/-- The relay loop (main.go:189-208) over a script of round outcomes.  The
boolean is `true` when the loop exited via `break`; `false` means the
script ran out with every step succeeding, i.e. the loop is still running
(its further behavior is outside the model). -/
def relayRun : List Round → List Ev × Bool
  | [] => ([], false)
  | r :: rest =>
    if (roundEvents r).2 then
      ((roundEvents r).1 ++ (relayRun rest).1, (relayRun rest).2)
    else ((roundEvents r).1, true)

/-- The external behavior one accept-loop iteration faces: the bytes the
client sends (as `conn.Read` segments), the configured serial, the attached
devices, whether writing the handshake acknowledgment succeeds, and the
outcomes of the relay rounds. -/
structure SessionEnv where
  segments : List (List Nat)
  serial : String
  devices : List Device
  writeHsOk : Bool
  rounds : List Round
deriving DecidableEq, Repr

/-- How one iteration of the accept loop ends. -/
inductive IterOut where
  | continues
  | crashed
  | running
deriving DecidableEq, Repr

/-- One iteration of the accept loop (main.go:170-211): accept, read the
handshake (on failure `continue` — with no `conn.Close()`), call
`usbDeviceOpen` (on failure sleep one second, close the connection,
`continue`; a panic escapes), write the handshake acknowledgment ignoring
its error, run the relay loop, and after its `break` close the connection
and release/close the USB device. -/
def sessionIter (env : SessionEnv) : List Ev × IterOut :=
  match netReadHandshake env.segments with
  | none => ([.accept], .continues)
  | some _ =>
    match usbDeviceOpen env.serial env.devices with
    | .panic => ([.accept, .usbOpenAttempt .panic], .crashed)
    | .ok m =>
      if (relayRun env.rounds).2 then
        ([.accept, .usbOpenAttempt (.ok m), .writeHandshake env.writeHsOk] ++
          (relayRun env.rounds).1 ++ [.connClose, .usbClose], .continues)
      else
        ([.accept, .usbOpenAttempt (.ok m), .writeHandshake env.writeHsOk] ++
          (relayRun env.rounds).1, .running)
    | e => ([.accept, .usbOpenAttempt e, .sleep, .connClose], .continues)

/-- `true` exactly on handshake-acknowledgment write events. -/
def isWriteHs : Ev → Bool
  | .writeHandshake _ => true
  | _ => false

/-- `true` exactly on `usbDeviceOpen` call events. -/
def isUsbOpen : Ev → Bool
  | .usbOpenAttempt _ => true
  | _ => false

/-- The capacity of a USB read event. -/
def usbReadCap : Ev → Option Nat
  | .usbReadEv c _ => some c
  | _ => none

/-- An iteration whose client sends 4 wrong handshake bytes. -/
def badHandshakeEnv : SessionEnv :=
  { segments := [[0, 0, 0, 0]], serial := "", devices := [claimableDevice],
    writeHsOk := true, rounds := [] }

/-- An iteration whose relay fails at the USB write of the first round. -/
def relayFailEnv : SessionEnv :=
  { segments := [handshakeBytes], serial := "", devices := [claimableDevice],
    writeHsOk := true, rounds := [⟨true, false, true, true⟩] }

/-- C4: the accept loop does close both the connection and the USB session
after a relay-step failure, but on a handshake failure it returns to
accepting WITHOUT ever calling `conn.Close()` (main.go:174-177 `continue`s
with no close), leaking the accepted connection, contrary to the
always-close contract. -/
theorem session_cleanup_handshake_leak :
    Ev.connClose ∈ (sessionIter relayFailEnv).1 ∧
    Ev.usbClose ∈ (sessionIter relayFailEnv).1 ∧
    (sessionIter relayFailEnv).2 = .continues ∧
    (sessionIter badHandshakeEnv).2 = .continues ∧
    Ev.connClose ∉ (sessionIter badHandshakeEnv).1 := by
  decide

/-- C5: when the first 4 bytes of a connection are anything but `"FB01"`
(or the read is short), the iteration performs no USB call at all — no
device enumeration, open or claim — and returns to accepting the next
connection. -/
theorem handshake_failure_no_usb (env : SessionEnv)
    (h : netReadHandshake env.segments = none) :
    (sessionIter env).1.filter isUsbOpen = [] ∧
    (sessionIter env).2 = .continues := by
  simp [sessionIter, h, isUsbOpen]

/-- Witness for `handshake_failure_no_usb` on a connection sending four
zero bytes. -/
theorem handshake_failure_no_usb_witness :
    netReadHandshake badHandshakeEnv.segments = none ∧
    (sessionIter badHandshakeEnv).1.filter isUsbOpen = [] ∧
    (sessionIter badHandshakeEnv).2 = .continues :=
  ⟨by decide,
   (handshake_failure_no_usb badHandshakeEnv (by decide)).1,
   (handshake_failure_no_usb badHandshakeEnv (by decide)).2⟩

/-- C7: with the handshake read but device acquisition failing (no match,
ambiguous, open or claim error — not a panic), the iteration sleeps the
fixed delay, closes the connection, writes no handshake acknowledgment,
and completes back to accepting (the failure stays local to the session);
moreover for every iteration whatsoever, an acknowledgment write event can
occur only when device acquisition succeeded (Bool implication in the last
conjunct). -/
theorem device_failure_local (env env2 : SessionEnv)
    (hh : (netReadHandshake env.segments).isSome = true)
    (hp : usbDeviceOpen env.serial env.devices ≠ .panic)
    (hf : (usbDeviceOpen env.serial env.devices).isOk = false) :
    (sessionIter env).1 =
      [.accept, .usbOpenAttempt (usbDeviceOpen env.serial env.devices),
       .sleep, .connClose] ∧
    (sessionIter env).2 = .continues ∧
    (sessionIter env).1.filter isWriteHs = [] ∧
    ((usbDeviceOpen env2.serial env2.devices).isOk ||
      ((sessionIter env2).1.filter isWriteHs).isEmpty) = true := by
  rw [Option.isSome_iff_exists] at hh
  obtain ⟨x, hx⟩ := hh
  have hgen : ((usbDeviceOpen env2.serial env2.devices).isOk ||
      ((sessionIter env2).1.filter isWriteHs).isEmpty) = true := by
    cases hh2 : netReadHandshake env2.segments with
    | none => simp [sessionIter, hh2, isWriteHs]
    | some y =>
      cases hr2 : usbDeviceOpen env2.serial env2.devices with
      | panic => simp [sessionIter, hh2, hr2, isWriteHs]
      | ok m => simp [hr2, UsbOpenResult.isOk]
      | errNoDevice => simp [sessionIter, hh2, hr2, isWriteHs]
      | errMultiple => simp [sessionIter, hh2, hr2, isWriteHs]
      | errOpen => simp [sessionIter, hh2, hr2, isWriteHs]
      | errClaim => simp [sessionIter, hh2, hr2, isWriteHs]
  have hmain : (sessionIter env).1 =
      [.accept, .usbOpenAttempt (usbDeviceOpen env.serial env.devices),
       .sleep, .connClose] ∧
      (sessionIter env).2 = .continues ∧
      (sessionIter env).1.filter isWriteHs = [] := by
    cases hr : usbDeviceOpen env.serial env.devices with
    | panic => exact absurd hr hp
    | ok m => rw [hr] at hf; simp [UsbOpenResult.isOk] at hf
    | errNoDevice => simp [sessionIter, hx, hr, isWriteHs]
    | errMultiple => simp [sessionIter, hx, hr, isWriteHs]
    | errOpen => simp [sessionIter, hx, hr, isWriteHs]
    | errClaim => simp [sessionIter, hx, hr, isWriteHs]
  exact ⟨hmain.1, hmain.2.1, hmain.2.2, hgen⟩

/-- An iteration whose client sent the handshake but no device is
attached. -/
def noDeviceEnv : SessionEnv :=
  { segments := [handshakeBytes], serial := "", devices := [],
    writeHsOk := true, rounds := [] }

/-- Witness for `device_failure_local`: handshake delivered, empty device
list. -/
theorem device_failure_local_witness :
    (netReadHandshake noDeviceEnv.segments).isSome = true ∧
    usbDeviceOpen noDeviceEnv.serial noDeviceEnv.devices ≠ .panic ∧
    (usbDeviceOpen noDeviceEnv.serial noDeviceEnv.devices).isOk = false ∧
    ((sessionIter noDeviceEnv).1 =
      [.accept,
       .usbOpenAttempt (usbDeviceOpen noDeviceEnv.serial noDeviceEnv.devices),
       .sleep, .connClose] ∧
     (sessionIter noDeviceEnv).2 = .continues ∧
     (sessionIter noDeviceEnv).1.filter isWriteHs = [] ∧
     ((usbDeviceOpen noDeviceEnv.serial noDeviceEnv.devices).isOk ||
       ((sessionIter noDeviceEnv).1.filter isWriteHs).isEmpty) = true) :=
  ⟨by decide, by decide, by decide,
   device_failure_local noDeviceEnv noDeviceEnv (by decide) (by decide)
     (by decide)⟩

theorem roundEvents_caps (r : Round) :
    ((roundEvents r).1.filterMap usbReadCap).all (· == 256) = true := by
  rcases r with ⟨nr, uw, ur, nw⟩
  cases nr <;> cases uw <;> cases ur <;> cases nw <;> decide

theorem relayRun_caps (rounds : List Round) :
    ((relayRun rounds).1.filterMap usbReadCap).all (· == 256) = true := by
  induction rounds with
  | nil => rfl
  | cons r rest ih =>
    simp only [relayRun]
    split
    · simp [List.filterMap_append, List.all_append, roundEvents_caps r, ih]
    · exact roundEvents_caps r

/-- C8: `usbRead` issues exactly one blocking bulk transfer, requesting
exactly the caller buffer's capacity, and returns the byte count the
transfer yields — it never loops to fill the buffer or drain a larger
response; and in the bridge loop every USB read event requests capacity
256, the size of the `response` buffer of main.go:188. -/
theorem usbRead_single_transfer :
    (∀ cap oracle, (usbRead cap oracle).requests = [cap] ∧
      (usbRead cap oracle).received = oracle.1 ∧
      (usbRead cap oracle).requests.length = 1) ∧
    (∀ env : SessionEnv,
      ((sessionIter env).1.filterMap usbReadCap).all (· == 256) = true) := by
  refine ⟨fun cap oracle => ⟨rfl, rfl, rfl⟩, fun env => ?_⟩
  cases hh : netReadHandshake env.segments with
  | none => simp [sessionIter, hh, usbReadCap]
  | some x =>
    cases hr : usbDeviceOpen env.serial env.devices with
    | panic => simp [sessionIter, hh, hr, usbReadCap]
    | ok m =>
      cases hb : (relayRun env.rounds).2 with
      | false =>
        have h1 : (sessionIter env).1 =
            [.accept, .usbOpenAttempt (.ok m),
             .writeHandshake env.writeHsOk] ++ (relayRun env.rounds).1 := by
          simp [sessionIter, hh, hr, hb]
        rw [h1, List.filterMap_append, List.all_append, relayRun_caps]
        simp [usbReadCap]
      | true =>
        have h1 : (sessionIter env).1 =
            [.accept, .usbOpenAttempt (.ok m),
             .writeHandshake env.writeHsOk] ++ (relayRun env.rounds).1 ++
              [.connClose, .usbClose] := by
          simp [sessionIter, hh, hr, hb]
        rw [h1, List.filterMap_append, List.filterMap_append,
          List.all_append, List.all_append, relayRun_caps]
        simp [usbReadCap]
    | errNoDevice => simp [sessionIter, hh, hr, usbReadCap]
    | errMultiple => simp [sessionIter, hh, hr, usbReadCap]
    | errOpen => simp [sessionIter, hh, hr, usbReadCap]
    | errClaim => simp [sessionIter, hh, hr, usbReadCap]

/-- The client sends the handshake and one complete frame in a single
segment. -/
def hsPlusFrameSegs : List (List Nat) :=
  [handshakeBytes ++ netWrite [1, 2, 3]]

/-- C9: `netReadHandshake` and `netRead` each wrap the connection in a
freshly constructed buffered reader, so one call can consume more bytes
from the connection than the message it returns.  When the handshake and a
complete frame arrive in one segment, the handshake call consumes the
whole segment and discards the frame bytes: the following `netRead` sees
an empty stream and fails even though the client already sent the frame —
whereas the same bytes split into two segments are relayed fine. -/
theorem fresh_buffered_reader_discards :
    netReadHandshake hsPlusFrameSegs = some [] ∧
    netRead [] = none ∧
    netReadHandshake [handshakeBytes, netWrite [1, 2, 3]] =
      some [netWrite [1, 2, 3]] ∧
    netRead [netWrite [1, 2, 3]] = some ([1, 2, 3], []) := by
  decide

/-- C10: if writing the 4-byte handshake acknowledgment fails, the bridge
loop ignores the error returned by `netWriteHandshake` (main.go:186
discards it): the iteration proceeds into the relay loop exactly as on a
successful write, instead of closing the session. -/
theorem writeHandshake_error_ignored (env : SessionEnv) (m : MatchedDev)
    (hh : (netReadHandshake env.segments).isSome = true)
    (hm : usbDeviceOpen env.serial env.devices = .ok m)
    (hw : env.writeHsOk = false) :
    (sessionIter env).1 =
      [.accept, .usbOpenAttempt (.ok m), .writeHandshake false] ++
        (relayRun env.rounds).1 ++
        (if (relayRun env.rounds).2 then [.connClose, .usbClose]
         else []) := by
  rw [Option.isSome_iff_exists] at hh
  obtain ⟨x, hx⟩ := hh
  cases hb : (relayRun env.rounds).2 <;> simp [sessionIter, hx, hm, hw, hb]

/-- An iteration where the acknowledgment write fails and the relay's
first round fails at its network write. -/
def ackFailEnv : SessionEnv :=
  { segments := [handshakeBytes], serial := "", devices := [claimableDevice],
    writeHsOk := false, rounds := [⟨true, true, true, false⟩] }

/-- Witness for `writeHandshake_error_ignored` on `ackFailEnv`. -/
theorem writeHandshake_error_ignored_witness :
    (netReadHandshake ackFailEnv.segments).isSome = true ∧
    usbDeviceOpen ackFailEnv.serial ackFailEnv.devices = .ok claimableMatch ∧
    ackFailEnv.writeHsOk = false ∧
    (sessionIter ackFailEnv).1 =
      [.accept, .usbOpenAttempt (.ok claimableMatch), .writeHandshake false] ++
        (relayRun ackFailEnv.rounds).1 ++
        (if (relayRun ackFailEnv.rounds).2 then [.connClose, .usbClose]
         else []) :=
  ⟨by decide, by decide, rfl,
   writeHandshake_error_ignored ackFailEnv claimableMatch (by decide)
     (by decide) rfl⟩

end RemoteFastboot
